import Mathlib

/-!
Shallow embedding of the `dps-config` crate (`src/lib.rs`): the `DpsConfig`
configuration container, its construction from environment variables, its
getters, setters and computed getters, together with theorems about them.
The process environment is modelled as a map from variable names to optional
string values.
-/

/-- The process environment: maps a variable name to its value, `none` when
the variable is unset (Rust `std::env::var` returning `Err`). -/
def EnvMap : Type := String → Option String

/-- `DpsConfig` (src/lib.rs, lines 41-56): the central configuration
container.  Every field is optional; `u16`/`u64` fields are modelled as
`Nat` (parsing enforces the range bounds). -/
structure DpsConfig where
  domain : Option String
  api_subdomain : Option String
  development_mode : Option Bool
  auth_api_subdomain : Option String
  auth_api_port : Option Nat
  auth_api_protocol : Option String
  auth_api_insecure_cookie : Option Bool
  auth_api_sqlite_main_file_path : Option String
  auth_api_sqlite_main_pool_size : Option Nat
  auth_api_session_secret : Option String
  auth_api_session_ttl_seconds : Option Nat

/-- The digit loop of Rust's `from_str_radix` at radix 10: every character
must be an ASCII digit and the list must be non-empty; otherwise a parse
error (`none`). -/
def parseAsciiDigits (cs : List Char) : Option Nat :=
  if cs ≠ [] ∧ cs.all (fun c => c.isDigit)
  then some (cs.foldl (fun a c => a * 10 + (c.toNat - 48)) 0)
  else none

/-- Rust `str::parse::<uN>()` for an unsigned integer type whose maximal
value is `max`: an optional leading plus sign, then decimal ASCII digits;
a value above `max` is an overflow error (`none`). -/
def rustParseUnsigned (max : Nat) (s : String) : Option Nat :=
  let cs :=
    match s.toList with
    | '+' :: rest => rest
    | cs => cs
  match parseAsciiDigits cs with
  | some n => if n ≤ max then some n else none
  | none => none

/-- `load_env_string` (src/lib.rs, lines 299-304): a set, non-empty variable
yields its value; an unset or empty variable yields `none`. -/
def load_env_string (env : EnvMap) (key : String) : Option String :=
  match env key with
  | some v => if v ≠ "" then some v else none
  | none => none

/-- `load_env_bool` (src/lib.rs, lines 306-308): a set variable yields
whether its raw value equals "Y"; an unset variable yields `none`. -/
def load_env_bool (env : EnvMap) (key : String) : Option Bool :=
  (env key).map (fun v => v == "Y")

/-- `load_env_u16` (src/lib.rs, lines 310-312): a set variable is parsed as
a `u16`; parse failure or absence yields `none`. -/
def load_env_u16 (env : EnvMap) (key : String) : Option Nat :=
  (env key).bind (fun v => rustParseUnsigned 65535 v)

/-- `load_env_u64` (src/lib.rs, lines 314-316): a set variable is parsed as
a `u64`; parse failure or absence yields `none`. -/
def load_env_u64 (env : EnvMap) (key : String) : Option Nat :=
  (env key).bind (fun v => rustParseUnsigned 18446744073709551615 v)

/-- `DpsConfig::new` (src/lib.rs, lines 74-88): build a snapshot from the
environment. -/
def DpsConfig.new (env : EnvMap) : DpsConfig :=
  { domain := load_env_string env "DPS_DOMAIN"
    api_subdomain := load_env_string env "DPS_API_SUBDOMAIN"
    development_mode := load_env_bool env "DPS_DEVELOPMENT_MODE"
    auth_api_subdomain := load_env_string env "DPS_AUTH_API_SUBDOMAIN"
    auth_api_port := load_env_u16 env "DPS_AUTH_API_PORT"
    auth_api_protocol := load_env_string env "DPS_AUTH_API_PROTOCOL"
    auth_api_insecure_cookie := load_env_bool env "DPS_AUTH_API_INSECURE_COOKIE"
    auth_api_sqlite_main_file_path := load_env_string env "DPS_AUTH_API_SQLITE_MAIN_FILE_PATH"
    auth_api_sqlite_main_pool_size := load_env_u16 env "DPS_AUTH_API_SQLITE_MAIN_POOL_SIZE"
    auth_api_session_secret := load_env_string env "DPS_AUTH_API_SESSION_SECRET"
    auth_api_session_ttl_seconds := load_env_u64 env "DPS_AUTH_API_SESSION_TTL_SECONDS" }

/-- `get_domain` (src/lib.rs, lines 97-102). -/
def DpsConfig.get_domain (c : DpsConfig) : String :=
  c.domain.getD "dps.localhost"

/-- `set_domain` (src/lib.rs, lines 105-107). -/
def DpsConfig.set_domain (c : DpsConfig) (value : String) : DpsConfig :=
  { c with domain := some value }

/-- `get_api_subdomain` (src/lib.rs, lines 112-117). -/
def DpsConfig.get_api_subdomain (c : DpsConfig) : String :=
  c.api_subdomain.getD "api"

/-- `set_api_subdomain` (src/lib.rs, lines 120-122). -/
def DpsConfig.set_api_subdomain (c : DpsConfig) (value : String) : DpsConfig :=
  { c with api_subdomain := some value }

/-- `get_development_mode` (src/lib.rs, lines 127-129). -/
def DpsConfig.get_development_mode (c : DpsConfig) : Bool :=
  c.development_mode.getD false

/-- `set_development_mode` (src/lib.rs, lines 132-134). -/
def DpsConfig.set_development_mode (c : DpsConfig) (value : Bool) : DpsConfig :=
  { c with development_mode := some value }

/-- `get_auth_api_subdomain` (src/lib.rs, lines 143-148). -/
def DpsConfig.get_auth_api_subdomain (c : DpsConfig) : String :=
  c.auth_api_subdomain.getD "auth"

/-- `set_auth_api_subdomain` (src/lib.rs, lines 151-153). -/
def DpsConfig.set_auth_api_subdomain (c : DpsConfig) (value : String) : DpsConfig :=
  { c with auth_api_subdomain := some value }

/-- `get_auth_api_port` (src/lib.rs, lines 158-160). -/
def DpsConfig.get_auth_api_port (c : DpsConfig) : Option Nat :=
  c.auth_api_port

/-- `set_auth_api_port` (src/lib.rs, lines 163-165); `none` unsets. -/
def DpsConfig.set_auth_api_port (c : DpsConfig) (value : Option Nat) : DpsConfig :=
  { c with auth_api_port := value }

/-- `get_auth_api_protocol` (src/lib.rs, lines 170-175). -/
def DpsConfig.get_auth_api_protocol (c : DpsConfig) : String :=
  c.auth_api_protocol.getD "https"

/-- `set_auth_api_protocol` (src/lib.rs, lines 178-180). -/
def DpsConfig.set_auth_api_protocol (c : DpsConfig) (value : String) : DpsConfig :=
  { c with auth_api_protocol := some value }

/-- `get_auth_api_insecure_cookie` (src/lib.rs, lines 186-188). -/
def DpsConfig.get_auth_api_insecure_cookie (c : DpsConfig) : Bool :=
  c.auth_api_insecure_cookie.getD false

/-- `set_auth_api_insecure_cookie` (src/lib.rs, lines 191-193). -/
def DpsConfig.set_auth_api_insecure_cookie (c : DpsConfig) (value : Bool) : DpsConfig :=
  { c with auth_api_insecure_cookie := some value }

/-- `get_auth_api_sqlite_main_file_path` (src/lib.rs, lines 199-204). -/
def DpsConfig.get_auth_api_sqlite_main_file_path (c : DpsConfig) : String :=
  c.auth_api_sqlite_main_file_path.getD "data/main-development.db"

/-- `set_auth_api_sqlite_main_file_path` (src/lib.rs, lines 207-209). -/
def DpsConfig.set_auth_api_sqlite_main_file_path (c : DpsConfig) (value : String) : DpsConfig :=
  { c with auth_api_sqlite_main_file_path := some value }

/-- `get_auth_api_sqlite_main_pool_size` (src/lib.rs, lines 215-217). -/
def DpsConfig.get_auth_api_sqlite_main_pool_size (c : DpsConfig) : Nat :=
  c.auth_api_sqlite_main_pool_size.getD 1

/-- `set_auth_api_sqlite_main_pool_size` (src/lib.rs, lines 221-223);
`none` resets to default. -/
def DpsConfig.set_auth_api_sqlite_main_pool_size (c : DpsConfig) (value : Option Nat) : DpsConfig :=
  { c with auth_api_sqlite_main_pool_size := value }

/-- `get_auth_api_session_secret` (src/lib.rs, lines 228-230). -/
def DpsConfig.get_auth_api_session_secret (c : DpsConfig) : Option String :=
  c.auth_api_session_secret

/-- `set_auth_api_session_secret` (src/lib.rs, lines 233-235); `none`
unsets. -/
def DpsConfig.set_auth_api_session_secret (c : DpsConfig) (value : Option String) : DpsConfig :=
  { c with auth_api_session_secret := value }

/-- `get_auth_api_session_secret_bytes` (src/lib.rs, lines 241-246): the
secret re-encoded as its raw (UTF-8) bytes. -/
def DpsConfig.get_auth_api_session_secret_bytes (c : DpsConfig) : Option ByteArray :=
  c.auth_api_session_secret.map (fun s => s.toUTF8)

/-- `get_auth_api_session_ttl_seconds` (src/lib.rs, lines 252-254). -/
def DpsConfig.get_auth_api_session_ttl_seconds (c : DpsConfig) : Nat :=
  c.auth_api_session_ttl_seconds.getD 1209600

/-- `set_auth_api_session_ttl_seconds` (src/lib.rs, lines 257-259); `none`
unsets. -/
def DpsConfig.set_auth_api_session_ttl_seconds (c : DpsConfig) (value : Option Nat) : DpsConfig :=
  { c with auth_api_session_ttl_seconds := value }

/-- `get_api_domain` (src/lib.rs, lines 268-270). -/
def DpsConfig.get_api_domain (c : DpsConfig) : String :=
  c.get_api_subdomain ++ "." ++ c.get_domain

/-- `get_auth_api_url` (src/lib.rs, lines 277-286). -/
def DpsConfig.get_auth_api_url (c : DpsConfig) : String :=
  let protocol := c.get_auth_api_protocol
  let auth_sub := c.get_auth_api_subdomain
  let api_domain := c.get_api_domain
  match c.auth_api_port with
  | some port => protocol ++ "://" ++ auth_sub ++ "." ++ api_domain ++ ":" ++ toString port
  | none => protocol ++ "://" ++ auth_sub ++ "." ++ api_domain

/-- `impl Default for DpsConfig` (src/lib.rs, lines 289-293). -/
def DpsConfig.default (env : EnvMap) : DpsConfig :=
  DpsConfig.new env

/-- An environment with every variable unset. -/
def emptyEnv : EnvMap := fun _ => none

/-- Claim C1: for every configuration state, `get_auth_api_url` is
`<protocol>://<auth_subdomain>.<api_domain>` built from the getters
(defaults applied), followed by `:<port>` exactly when the `auth_api_port`
field is present; when the port is absent no port segment is emitted. -/
theorem get_auth_api_url_spec (c : DpsConfig) :
    c.get_auth_api_url =
      c.get_auth_api_protocol ++ "://" ++ c.get_auth_api_subdomain ++ "." ++
        c.get_api_domain ++
        (match c.get_auth_api_port with
         | some port => ":" ++ toString port
         | none => "") := by
  unfold DpsConfig.get_auth_api_url DpsConfig.get_auth_api_port
  cases c.auth_api_port <;> simp [String.append_assoc]

/-- Claim C2: with every environment variable unset, each getter with a
documented default yields exactly that default, and only the port and the
session secret (and its byte view) report absent. -/
theorem fresh_defaults :
    (DpsConfig.new emptyEnv).get_domain = "dps.localhost" ∧
    (DpsConfig.new emptyEnv).get_api_subdomain = "api" ∧
    (DpsConfig.new emptyEnv).get_development_mode = false ∧
    (DpsConfig.new emptyEnv).get_auth_api_subdomain = "auth" ∧
    (DpsConfig.new emptyEnv).get_auth_api_protocol = "https" ∧
    (DpsConfig.new emptyEnv).get_auth_api_insecure_cookie = false ∧
    (DpsConfig.new emptyEnv).get_auth_api_sqlite_main_file_path = "data/main-development.db" ∧
    (DpsConfig.new emptyEnv).get_auth_api_sqlite_main_pool_size = 1 ∧
    (DpsConfig.new emptyEnv).get_auth_api_session_ttl_seconds = 1209600 ∧
    (DpsConfig.new emptyEnv).get_auth_api_port = none ∧
    (DpsConfig.new emptyEnv).get_auth_api_session_secret = none ∧
    (DpsConfig.new emptyEnv).get_auth_api_session_secret_bytes = none :=
  ⟨rfl, rfl, rfl, rfl, rfl, rfl, rfl, rfl, rfl, rfl, rfl, rfl⟩

/-- Claim C3: for every field, setting a value of the field's type and then
reading it through the getter returns exactly the set value, whatever the
prior (environment-sourced or set) state was.  The `u16`/`u64` fields with
a defaulting getter are set through `some`; the optional port and secret
are quantified over their full optional type. -/
theorem set_then_get (c : DpsConfig) (s1 s2 s3 s4 s5 : String) (b1 b2 : Bool)
    (p : Option Nat) (pool : Nat) (sec : Option String) (ttl : Nat) :
    (c.set_domain s1).get_domain = s1 ∧
    (c.set_api_subdomain s2).get_api_subdomain = s2 ∧
    (c.set_development_mode b1).get_development_mode = b1 ∧
    (c.set_auth_api_subdomain s3).get_auth_api_subdomain = s3 ∧
    (c.set_auth_api_port p).get_auth_api_port = p ∧
    (c.set_auth_api_protocol s4).get_auth_api_protocol = s4 ∧
    (c.set_auth_api_insecure_cookie b2).get_auth_api_insecure_cookie = b2 ∧
    (c.set_auth_api_sqlite_main_file_path s5).get_auth_api_sqlite_main_file_path = s5 ∧
    (c.set_auth_api_sqlite_main_pool_size (some pool)).get_auth_api_sqlite_main_pool_size
      = pool ∧
    (c.set_auth_api_session_secret sec).get_auth_api_session_secret = sec ∧
    (c.set_auth_api_session_ttl_seconds (some ttl)).get_auth_api_session_ttl_seconds = ttl :=
  ⟨rfl, rfl, rfl, rfl, rfl, rfl, rfl, rfl, rfl, rfl, rfl⟩

/-- Claim C4: for every configuration state, `get_api_domain` is the API
subdomain getter's result, a dot, and the domain getter's result, in that
order — always a concrete string, recomputed from the current state. -/
theorem get_api_domain_spec (c : DpsConfig) :
    c.get_api_domain = c.get_api_subdomain ++ "." ++ c.get_domain := rfl

/-- Claim C5: for both boolean fields, construction records `true` exactly
when the raw environment string equals "Y" (any other string records
`false`), and an unset variable records the field as absent, the getter
then yielding `false`. -/
theorem bool_env_parsing (env : EnvMap) (s : String) :
    (env "DPS_DEVELOPMENT_MODE" = some s →
      (DpsConfig.new env).development_mode = some (s == "Y")) ∧
    (env "DPS_DEVELOPMENT_MODE" = none →
      (DpsConfig.new env).development_mode = none ∧
      (DpsConfig.new env).get_development_mode = false) ∧
    (env "DPS_AUTH_API_INSECURE_COOKIE" = some s →
      (DpsConfig.new env).auth_api_insecure_cookie = some (s == "Y")) ∧
    (env "DPS_AUTH_API_INSECURE_COOKIE" = none →
      (DpsConfig.new env).auth_api_insecure_cookie = none ∧
      (DpsConfig.new env).get_auth_api_insecure_cookie = false) := by
  refine ⟨fun h => ?_, fun h => ⟨?_, ?_⟩, fun h => ?_, fun h => ⟨?_, ?_⟩⟩ <;>
    simp [DpsConfig.new, load_env_bool, DpsConfig.get_development_mode,
      DpsConfig.get_auth_api_insecure_cookie, h]

/-- An environment with development mode set to a non-"Y" string and the
insecure-cookie flag set to "Y". -/
def envBools : EnvMap := fun k =>
  if k = "DPS_DEVELOPMENT_MODE" then some "true"
  else if k = "DPS_AUTH_API_INSECURE_COOKIE" then some "Y"
  else none

theorem bool_env_parsing_witness :
    (DpsConfig.new envBools).development_mode = some false ∧
    (DpsConfig.new envBools).auth_api_insecure_cookie = some true ∧
    (DpsConfig.new emptyEnv).development_mode = none ∧
    (DpsConfig.new emptyEnv).get_development_mode = false ∧
    (DpsConfig.new emptyEnv).auth_api_insecure_cookie = none ∧
    (DpsConfig.new emptyEnv).get_auth_api_insecure_cookie = false :=
  ⟨((bool_env_parsing envBools "true").1 rfl).trans (by decide),
   ((bool_env_parsing envBools "Y").2.2.1 rfl).trans (by decide),
   ((bool_env_parsing emptyEnv "").2.1 rfl).1,
   ((bool_env_parsing emptyEnv "").2.1 rfl).2,
   ((bool_env_parsing emptyEnv "").2.2.2 rfl).1,
   ((bool_env_parsing emptyEnv "").2.2.2 rfl).2⟩

/-- Claim C6: a malformed environment value is treated as absence and never
fails: an empty string for a text field yields the absent state, and a
string the unsigned parse rejects (non-numeric or out of range) yields the
absent state for the integer fields. -/
theorem malformed_env_is_unset (env : EnvMap) :
    (env "DPS_DOMAIN" = some "" → (DpsConfig.new env).domain = none) ∧
    (env "DPS_API_SUBDOMAIN" = some "" → (DpsConfig.new env).api_subdomain = none) ∧
    (env "DPS_AUTH_API_SUBDOMAIN" = some "" →
      (DpsConfig.new env).auth_api_subdomain = none) ∧
    (env "DPS_AUTH_API_PROTOCOL" = some "" →
      (DpsConfig.new env).auth_api_protocol = none) ∧
    (env "DPS_AUTH_API_SQLITE_MAIN_FILE_PATH" = some "" →
      (DpsConfig.new env).auth_api_sqlite_main_file_path = none) ∧
    (env "DPS_AUTH_API_SESSION_SECRET" = some "" →
      (DpsConfig.new env).auth_api_session_secret = none) ∧
    (∀ s, env "DPS_AUTH_API_PORT" = some s → rustParseUnsigned 65535 s = none →
      (DpsConfig.new env).auth_api_port = none) ∧
    (∀ s, env "DPS_AUTH_API_SQLITE_MAIN_POOL_SIZE" = some s →
      rustParseUnsigned 65535 s = none →
      (DpsConfig.new env).auth_api_sqlite_main_pool_size = none) ∧
    (∀ s, env "DPS_AUTH_API_SESSION_TTL_SECONDS" = some s →
      rustParseUnsigned 18446744073709551615 s = none →
      (DpsConfig.new env).auth_api_session_ttl_seconds = none) := by
  refine ⟨fun h => ?_, fun h => ?_, fun h => ?_, fun h => ?_, fun h => ?_, fun h => ?_,
    fun s h hp => ?_, fun s h hp => ?_, fun s h hp => ?_⟩ <;>
    simp [DpsConfig.new, load_env_string, load_env_u16, load_env_u64, *]

/-- An environment holding only malformed values: empty strings for the
text fields, an out-of-range port, and non-numeric integers. -/
def envMalformed : EnvMap := fun k =>
  if k = "DPS_AUTH_API_PORT" then some "70000"
  else if k = "DPS_AUTH_API_SQLITE_MAIN_POOL_SIZE" then some "abc"
  else if k = "DPS_AUTH_API_SESSION_TTL_SECONDS" then some "12x"
  else if k = "DPS_DEVELOPMENT_MODE" then none
  else if k = "DPS_AUTH_API_INSECURE_COOKIE" then none
  else some ""

theorem malformed_env_is_unset_witness :
    (DpsConfig.new envMalformed).domain = none ∧
    (DpsConfig.new envMalformed).api_subdomain = none ∧
    (DpsConfig.new envMalformed).auth_api_subdomain = none ∧
    (DpsConfig.new envMalformed).auth_api_protocol = none ∧
    (DpsConfig.new envMalformed).auth_api_sqlite_main_file_path = none ∧
    (DpsConfig.new envMalformed).auth_api_session_secret = none ∧
    (DpsConfig.new envMalformed).auth_api_port = none ∧
    (DpsConfig.new envMalformed).auth_api_sqlite_main_pool_size = none ∧
    (DpsConfig.new envMalformed).auth_api_session_ttl_seconds = none :=
  ⟨(malformed_env_is_unset envMalformed).1 rfl,
   (malformed_env_is_unset envMalformed).2.1 rfl,
   (malformed_env_is_unset envMalformed).2.2.1 rfl,
   (malformed_env_is_unset envMalformed).2.2.2.1 rfl,
   (malformed_env_is_unset envMalformed).2.2.2.2.1 rfl,
   (malformed_env_is_unset envMalformed).2.2.2.2.2.1 rfl,
   (malformed_env_is_unset envMalformed).2.2.2.2.2.2.1 "70000" rfl (by decide),
   (malformed_env_is_unset envMalformed).2.2.2.2.2.2.2.1 "abc" rfl (by decide),
   (malformed_env_is_unset envMalformed).2.2.2.2.2.2.2.2 "12x" rfl (by decide)⟩

/-- Claim C7: the byte view of the session secret is absent exactly when
the text form is absent, and when present it is exactly the raw (UTF-8)
byte encoding of the text value. -/
theorem session_secret_bytes_spec (c : DpsConfig) :
    c.get_auth_api_session_secret_bytes
      = (c.get_auth_api_session_secret).map (fun s => s.toUTF8) ∧
    ((c.get_auth_api_session_secret_bytes).isSome
      ↔ (c.get_auth_api_session_secret).isSome) :=
  ⟨rfl, by
    cases h : c.auth_api_session_secret <;>
      simp [DpsConfig.get_auth_api_session_secret_bytes,
        DpsConfig.get_auth_api_session_secret, h]⟩

/-- Claim C8: from any prior state, clearing a clearable field with `none`
and reading it back yields the documented default behavior again: pool
size 1, session TTL 1209600, port absent, session secret absent. -/
theorem clear_restores_default (c : DpsConfig) :
    (c.set_auth_api_sqlite_main_pool_size none).get_auth_api_sqlite_main_pool_size = 1 ∧
    (c.set_auth_api_session_ttl_seconds none).get_auth_api_session_ttl_seconds = 1209600 ∧
    (c.set_auth_api_port none).get_auth_api_port = none ∧
    (c.set_auth_api_session_secret none).get_auth_api_session_secret = none :=
  ⟨rfl, rfl, rfl, rfl⟩

/-- Claim C9: every setter modifies only its own field — after any setter
call, every other field holds exactly the value it held before. -/
theorem setters_frame (c : DpsConfig) (s1 s2 s3 s4 s5 : String) (b1 b2 : Bool)
    (p : Option Nat) (pool : Option Nat) (sec : Option String) (ttl : Option Nat) :
    ((c.set_domain s1).api_subdomain = c.api_subdomain ∧
     (c.set_domain s1).development_mode = c.development_mode ∧
     (c.set_domain s1).auth_api_subdomain = c.auth_api_subdomain ∧
     (c.set_domain s1).auth_api_port = c.auth_api_port ∧
     (c.set_domain s1).auth_api_protocol = c.auth_api_protocol ∧
     (c.set_domain s1).auth_api_insecure_cookie = c.auth_api_insecure_cookie ∧
     (c.set_domain s1).auth_api_sqlite_main_file_path = c.auth_api_sqlite_main_file_path ∧
     (c.set_domain s1).auth_api_sqlite_main_pool_size = c.auth_api_sqlite_main_pool_size ∧
     (c.set_domain s1).auth_api_session_secret = c.auth_api_session_secret ∧
     (c.set_domain s1).auth_api_session_ttl_seconds = c.auth_api_session_ttl_seconds) ∧
    ((c.set_api_subdomain s2).domain = c.domain ∧
     (c.set_api_subdomain s2).development_mode = c.development_mode ∧
     (c.set_api_subdomain s2).auth_api_subdomain = c.auth_api_subdomain ∧
     (c.set_api_subdomain s2).auth_api_port = c.auth_api_port ∧
     (c.set_api_subdomain s2).auth_api_protocol = c.auth_api_protocol ∧
     (c.set_api_subdomain s2).auth_api_insecure_cookie = c.auth_api_insecure_cookie ∧
     (c.set_api_subdomain s2).auth_api_sqlite_main_file_path
       = c.auth_api_sqlite_main_file_path ∧
     (c.set_api_subdomain s2).auth_api_sqlite_main_pool_size
       = c.auth_api_sqlite_main_pool_size ∧
     (c.set_api_subdomain s2).auth_api_session_secret = c.auth_api_session_secret ∧
     (c.set_api_subdomain s2).auth_api_session_ttl_seconds
       = c.auth_api_session_ttl_seconds) ∧
    ((c.set_development_mode b1).domain = c.domain ∧
     (c.set_development_mode b1).api_subdomain = c.api_subdomain ∧
     (c.set_development_mode b1).auth_api_subdomain = c.auth_api_subdomain ∧
     (c.set_development_mode b1).auth_api_port = c.auth_api_port ∧
     (c.set_development_mode b1).auth_api_protocol = c.auth_api_protocol ∧
     (c.set_development_mode b1).auth_api_insecure_cookie = c.auth_api_insecure_cookie ∧
     (c.set_development_mode b1).auth_api_sqlite_main_file_path
       = c.auth_api_sqlite_main_file_path ∧
     (c.set_development_mode b1).auth_api_sqlite_main_pool_size
       = c.auth_api_sqlite_main_pool_size ∧
     (c.set_development_mode b1).auth_api_session_secret = c.auth_api_session_secret ∧
     (c.set_development_mode b1).auth_api_session_ttl_seconds
       = c.auth_api_session_ttl_seconds) ∧
    ((c.set_auth_api_subdomain s3).domain = c.domain ∧
     (c.set_auth_api_subdomain s3).api_subdomain = c.api_subdomain ∧
     (c.set_auth_api_subdomain s3).development_mode = c.development_mode ∧
     (c.set_auth_api_subdomain s3).auth_api_port = c.auth_api_port ∧
     (c.set_auth_api_subdomain s3).auth_api_protocol = c.auth_api_protocol ∧
     (c.set_auth_api_subdomain s3).auth_api_insecure_cookie = c.auth_api_insecure_cookie ∧
     (c.set_auth_api_subdomain s3).auth_api_sqlite_main_file_path
       = c.auth_api_sqlite_main_file_path ∧
     (c.set_auth_api_subdomain s3).auth_api_sqlite_main_pool_size
       = c.auth_api_sqlite_main_pool_size ∧
     (c.set_auth_api_subdomain s3).auth_api_session_secret = c.auth_api_session_secret ∧
     (c.set_auth_api_subdomain s3).auth_api_session_ttl_seconds
       = c.auth_api_session_ttl_seconds) ∧
    ((c.set_auth_api_port p).domain = c.domain ∧
     (c.set_auth_api_port p).api_subdomain = c.api_subdomain ∧
     (c.set_auth_api_port p).development_mode = c.development_mode ∧
     (c.set_auth_api_port p).auth_api_subdomain = c.auth_api_subdomain ∧
     (c.set_auth_api_port p).auth_api_protocol = c.auth_api_protocol ∧
     (c.set_auth_api_port p).auth_api_insecure_cookie = c.auth_api_insecure_cookie ∧
     (c.set_auth_api_port p).auth_api_sqlite_main_file_path
       = c.auth_api_sqlite_main_file_path ∧
     (c.set_auth_api_port p).auth_api_sqlite_main_pool_size
       = c.auth_api_sqlite_main_pool_size ∧
     (c.set_auth_api_port p).auth_api_session_secret = c.auth_api_session_secret ∧
     (c.set_auth_api_port p).auth_api_session_ttl_seconds
       = c.auth_api_session_ttl_seconds) ∧
    ((c.set_auth_api_protocol s4).domain = c.domain ∧
     (c.set_auth_api_protocol s4).api_subdomain = c.api_subdomain ∧
     (c.set_auth_api_protocol s4).development_mode = c.development_mode ∧
     (c.set_auth_api_protocol s4).auth_api_subdomain = c.auth_api_subdomain ∧
     (c.set_auth_api_protocol s4).auth_api_port = c.auth_api_port ∧
     (c.set_auth_api_protocol s4).auth_api_insecure_cookie = c.auth_api_insecure_cookie ∧
     (c.set_auth_api_protocol s4).auth_api_sqlite_main_file_path
       = c.auth_api_sqlite_main_file_path ∧
     (c.set_auth_api_protocol s4).auth_api_sqlite_main_pool_size
       = c.auth_api_sqlite_main_pool_size ∧
     (c.set_auth_api_protocol s4).auth_api_session_secret = c.auth_api_session_secret ∧
     (c.set_auth_api_protocol s4).auth_api_session_ttl_seconds
       = c.auth_api_session_ttl_seconds) ∧
    ((c.set_auth_api_insecure_cookie b2).domain = c.domain ∧
     (c.set_auth_api_insecure_cookie b2).api_subdomain = c.api_subdomain ∧
     (c.set_auth_api_insecure_cookie b2).development_mode = c.development_mode ∧
     (c.set_auth_api_insecure_cookie b2).auth_api_subdomain = c.auth_api_subdomain ∧
     (c.set_auth_api_insecure_cookie b2).auth_api_port = c.auth_api_port ∧
     (c.set_auth_api_insecure_cookie b2).auth_api_protocol = c.auth_api_protocol ∧
     (c.set_auth_api_insecure_cookie b2).auth_api_sqlite_main_file_path
       = c.auth_api_sqlite_main_file_path ∧
     (c.set_auth_api_insecure_cookie b2).auth_api_sqlite_main_pool_size
       = c.auth_api_sqlite_main_pool_size ∧
     (c.set_auth_api_insecure_cookie b2).auth_api_session_secret
       = c.auth_api_session_secret ∧
     (c.set_auth_api_insecure_cookie b2).auth_api_session_ttl_seconds
       = c.auth_api_session_ttl_seconds) ∧
    ((c.set_auth_api_sqlite_main_file_path s5).domain = c.domain ∧
     (c.set_auth_api_sqlite_main_file_path s5).api_subdomain = c.api_subdomain ∧
     (c.set_auth_api_sqlite_main_file_path s5).development_mode = c.development_mode ∧
     (c.set_auth_api_sqlite_main_file_path s5).auth_api_subdomain
       = c.auth_api_subdomain ∧
     (c.set_auth_api_sqlite_main_file_path s5).auth_api_port = c.auth_api_port ∧
     (c.set_auth_api_sqlite_main_file_path s5).auth_api_protocol = c.auth_api_protocol ∧
     (c.set_auth_api_sqlite_main_file_path s5).auth_api_insecure_cookie
       = c.auth_api_insecure_cookie ∧
     (c.set_auth_api_sqlite_main_file_path s5).auth_api_sqlite_main_pool_size
       = c.auth_api_sqlite_main_pool_size ∧
     (c.set_auth_api_sqlite_main_file_path s5).auth_api_session_secret
       = c.auth_api_session_secret ∧
     (c.set_auth_api_sqlite_main_file_path s5).auth_api_session_ttl_seconds
       = c.auth_api_session_ttl_seconds) ∧
    ((c.set_auth_api_sqlite_main_pool_size pool).domain = c.domain ∧
     (c.set_auth_api_sqlite_main_pool_size pool).api_subdomain = c.api_subdomain ∧
     (c.set_auth_api_sqlite_main_pool_size pool).development_mode = c.development_mode ∧
     (c.set_auth_api_sqlite_main_pool_size pool).auth_api_subdomain
       = c.auth_api_subdomain ∧
     (c.set_auth_api_sqlite_main_pool_size pool).auth_api_port = c.auth_api_port ∧
     (c.set_auth_api_sqlite_main_pool_size pool).auth_api_protocol
       = c.auth_api_protocol ∧
     (c.set_auth_api_sqlite_main_pool_size pool).auth_api_insecure_cookie
       = c.auth_api_insecure_cookie ∧
     (c.set_auth_api_sqlite_main_pool_size pool).auth_api_sqlite_main_file_path
       = c.auth_api_sqlite_main_file_path ∧
     (c.set_auth_api_sqlite_main_pool_size pool).auth_api_session_secret
       = c.auth_api_session_secret ∧
     (c.set_auth_api_sqlite_main_pool_size pool).auth_api_session_ttl_seconds
       = c.auth_api_session_ttl_seconds) ∧
    ((c.set_auth_api_session_secret sec).domain = c.domain ∧
     (c.set_auth_api_session_secret sec).api_subdomain = c.api_subdomain ∧
     (c.set_auth_api_session_secret sec).development_mode = c.development_mode ∧
     (c.set_auth_api_session_secret sec).auth_api_subdomain = c.auth_api_subdomain ∧
     (c.set_auth_api_session_secret sec).auth_api_port = c.auth_api_port ∧
     (c.set_auth_api_session_secret sec).auth_api_protocol = c.auth_api_protocol ∧
     (c.set_auth_api_session_secret sec).auth_api_insecure_cookie
       = c.auth_api_insecure_cookie ∧
     (c.set_auth_api_session_secret sec).auth_api_sqlite_main_file_path
       = c.auth_api_sqlite_main_file_path ∧
     (c.set_auth_api_session_secret sec).auth_api_sqlite_main_pool_size
       = c.auth_api_sqlite_main_pool_size ∧
     (c.set_auth_api_session_secret sec).auth_api_session_ttl_seconds
       = c.auth_api_session_ttl_seconds) ∧
    ((c.set_auth_api_session_ttl_seconds ttl).domain = c.domain ∧
     (c.set_auth_api_session_ttl_seconds ttl).api_subdomain = c.api_subdomain ∧
     (c.set_auth_api_session_ttl_seconds ttl).development_mode = c.development_mode ∧
     (c.set_auth_api_session_ttl_seconds ttl).auth_api_subdomain
       = c.auth_api_subdomain ∧
     (c.set_auth_api_session_ttl_seconds ttl).auth_api_port = c.auth_api_port ∧
     (c.set_auth_api_session_ttl_seconds ttl).auth_api_protocol = c.auth_api_protocol ∧
     (c.set_auth_api_session_ttl_seconds ttl).auth_api_insecure_cookie
       = c.auth_api_insecure_cookie ∧
     (c.set_auth_api_session_ttl_seconds ttl).auth_api_sqlite_main_file_path
       = c.auth_api_sqlite_main_file_path ∧
     (c.set_auth_api_session_ttl_seconds ttl).auth_api_sqlite_main_pool_size
       = c.auth_api_sqlite_main_pool_size ∧
     (c.set_auth_api_session_ttl_seconds ttl).auth_api_session_secret
       = c.auth_api_session_secret) := by
  repeat' apply And.intro
  all_goals rfl

/-- Claim C10: the `Default` implementation is identical to the
zero-argument constructor — under the same environment it produces a state
field-for-field equal to the one produced by `new`. -/
theorem default_eq_new (env : EnvMap) :
    (DpsConfig.default env).domain = (DpsConfig.new env).domain ∧
    (DpsConfig.default env).api_subdomain = (DpsConfig.new env).api_subdomain ∧
    (DpsConfig.default env).development_mode = (DpsConfig.new env).development_mode ∧
    (DpsConfig.default env).auth_api_subdomain = (DpsConfig.new env).auth_api_subdomain ∧
    (DpsConfig.default env).auth_api_port = (DpsConfig.new env).auth_api_port ∧
    (DpsConfig.default env).auth_api_protocol = (DpsConfig.new env).auth_api_protocol ∧
    (DpsConfig.default env).auth_api_insecure_cookie
      = (DpsConfig.new env).auth_api_insecure_cookie ∧
    (DpsConfig.default env).auth_api_sqlite_main_file_path
      = (DpsConfig.new env).auth_api_sqlite_main_file_path ∧
    (DpsConfig.default env).auth_api_sqlite_main_pool_size
      = (DpsConfig.new env).auth_api_sqlite_main_pool_size ∧
    (DpsConfig.default env).auth_api_session_secret
      = (DpsConfig.new env).auth_api_session_secret ∧
    (DpsConfig.default env).auth_api_session_ttl_seconds
      = (DpsConfig.new env).auth_api_session_ttl_seconds :=
  ⟨rfl, rfl, rfl, rfl, rfl, rfl, rfl, rfl, rfl, rfl, rfl⟩
